/-
  Verification of the multi-unit rota scheduling engine (`solve_rota` in
  `solver.py`) of the Hospital-Rota-App repository.

  Shallow embedding conventions:
  * A shift name string `"<Type> <day> <unit>"` is modelled by its parsed
    form (`parse_shift_name` in the source is a bijection on well-formed
    names): the structure `Shift` below.  The data-model invariant of the
    snapshot says shift identity strings are unique, so the `assignments`
    dict of STEP 2 is modelled as the association list built from
    `shifts_list` in order.
  * Python dicts keyed by worker name (`worker_cannot`, `max_24hr`, ...)
    are modelled by `List.find?` lookups over `workers_list`; worker names
    are unique per the data model, so first-match equals dict lookup.
  * The external MIP solver (PuLP/CBC, STEP 13) is not part of the engine:
    it is modelled at its boundary by a solver status string together with
    a valuation of the decision variables (`Sol`).  A status of `Optimal`
    or `Not Solved` comes with variable values that satisfy every
    constraint of the assembled model; `Satisfies` is that constraint set,
    translated constraint by constraint from STEP 12.
-/
import Mathlib

namespace RotaApp

/-- Shift type: the first token of a shift name, `"Day"` or `"Night"`. -/
inductive SType where
  | Day : SType
  | Night : SType
deriving DecidableEq, Repr

/-- A shift identity: the parsed form of a shift name
`"<Type> <day> <unit>"` (see `parse_shift_name`, solver.py STEP 5). -/
structure Shift where
  stype : SType
  day : Nat
  unit : String
deriving DecidableEq, Repr

/-- A record of `shifts_list`: identity plus tags and the pre-assigned
worker (`None` when the shift is still empty). -/
structure ShiftRec where
  name : Shift
  tags : List String
  assigned_worker : Option String
deriving DecidableEq, Repr

/-- A shift-type + day token such as `"Day 5"`, as used in the
`cannot_work` and `prefers` lists of a worker row. -/
abbrev Token := SType × Nat

/-- A record of `workers_list` (the fields read by `solve_rota`). -/
structure WorkerRec where
  name : String
  shifts_to_fill : Nat × Nat
  cannot_work : List Token
  prefers : List Token
  prefer_units : List String
  max_24hr : Nat
  max_weekends : Nat
deriving DecidableEq, Repr

/-- The settings dictionary of STEP 1, with the `.get` fallback values of
solver.py as defaults. -/
structure Settings where
  points_filled : Int := 100
  points_preferred : Int := 5
  points_preferred_unit : Int := 5
  points_spacing : Int := -1
  spacing_days_threshold : Nat := 5
  points_24hr : Int := -10
  enforce_no_adj_nights : Bool := true
  enforce_no_adj_days : Bool := true
deriving DecidableEq, Repr

/-- One invocation's input: the arguments of `solve_rota`. -/
structure Inp where
  shifts_list : List ShiftRec
  workers_list : List WorkerRec
  units_list : List String
  settings : Settings
deriving Repr

/-- STEP 2: the `assignments` dictionary, `shift name ↦ assigned worker`,
built from `shifts_list` in order (names are unique in a snapshot). -/
def initAssignments (inp : Inp) : List (Shift × Option String) :=
  inp.shifts_list.map (fun r => (r.name, r.assigned_worker))

/-- STEP 3: the names of the shifts with no assigned worker. -/
def empty_shifts (inp : Inp) : List Shift :=
  (inp.shifts_list.filter (fun r => r.assigned_worker == none)).map (fun r => r.name)

/-- STEP 3: the empty shifts that carry the `"Weekend"` tag. -/
def empty_weekend_shifts (inp : Inp) : List Shift :=
  (inp.shifts_list.filter
    (fun r => decide (r.name ∈ empty_shifts inp) && decide ("Weekend" ∈ r.tags))).map
    (fun r => r.name)

/-- STEP 4: the worker names. -/
def workers (inp : Inp) : List String :=
  inp.workers_list.map (fun r => r.name)

/-- Entry `shifts_by_day[day]` of STEP 6: the empty shifts on a given day, in
list order. -/
def shifts_by_day (es : List Shift) (d : Nat) : List Shift :=
  es.filter (fun s => s.day == d)

/-- The keys of the `shifts_by_day` dict: the distinct days that carry an
empty shift.  (The source iterates them in sorted order; only membership
matters for the pair sets.) -/
def dayKeys (es : List Shift) : List Nat :=
  (es.map (fun s => s.day)).dedup

/-- The Night-on-day-`d` / Day-on-day-`d+1` pairs contributed by one day
of the loop at solver.py lines 97-112. -/
def nightToDayOn (es : List Shift) (d : Nat) : List (Shift × Shift) :=
  (shifts_by_day es d).flatMap (fun s1 =>
    (shifts_by_day es (d + 1)).filterMap (fun s2 =>
      if s1.stype = SType.Night ∧ s2.stype = SType.Day then some (s1, s2) else none))

/-- List `bad_night_to_day_pairs`: Night (any unit) day X → Day (any unit) day
X+1, over empty shifts. -/
def bad_night_to_day_pairs (inp : Inp) : List (Shift × Shift) :=
  (dayKeys (empty_shifts inp)).flatMap (nightToDayOn (empty_shifts inp))

/-- The Night/Night consecutive-day pairs contributed by one day. -/
def nightNightOn (es : List Shift) (d : Nat) : List (Shift × Shift) :=
  (shifts_by_day es d).flatMap (fun s1 =>
    (shifts_by_day es (d + 1)).filterMap (fun s2 =>
      if s1.stype = SType.Night ∧ s2.stype = SType.Night then some (s1, s2) else none))

/-- List `bad_adjacent_nights_pairs`: Night day X → Night day X+1. -/
def bad_adjacent_nights_pairs (inp : Inp) : List (Shift × Shift) :=
  (dayKeys (empty_shifts inp)).flatMap (nightNightOn (empty_shifts inp))

/-- The Day/Day consecutive-day pairs contributed by one day. -/
def dayDayOn (es : List Shift) (d : Nat) : List (Shift × Shift) :=
  (shifts_by_day es d).flatMap (fun s1 =>
    (shifts_by_day es (d + 1)).filterMap (fun s2 =>
      if s1.stype = SType.Day ∧ s2.stype = SType.Day then some (s1, s2) else none))

/-- List `bad_adjacent_days_pairs`: Day day X → Day day X+1. -/
def bad_adjacent_days_pairs (inp : Inp) : List (Shift × Shift) :=
  (dayKeys (empty_shifts inp)).flatMap (dayDayOn (empty_shifts inp))

/-- All ordered pairs `(l[i], l[j])` with `i < j` — the Python pattern
`for i, a in enumerate(l): for b in l[i+1:]`. -/
def allPairs {α : Type} : List α → List (α × α)
  | [] => []
  | a :: rest => rest.map (fun b => (a, b)) ++ allPairs rest

/-- The same-day classification test of solver.py lines 121-125: same
unit and a Day+Night combination.  `{type1, type2} == {"Day", "Night"}`
is equivalent to `type1 ≠ type2` because there are only two types. -/
def is24Pair (a b : Shift) : Bool :=
  decide (a.unit = b.unit) && decide (a.stype ≠ b.stype)

/-- List `twenty_four_hour_shift_pairs`: same-day pairs that are Day+Night in
the same unit. -/
def twenty_four_hour_shift_pairs (inp : Inp) : List (Shift × Shift) :=
  (dayKeys (empty_shifts inp)).flatMap (fun d =>
    (allPairs (shifts_by_day (empty_shifts inp) d)).filter (fun p => is24Pair p.1 p.2))

/-- List `bad_same_day_non24hr_pairs`: every other same-day pair. -/
def bad_same_day_non24hr_pairs (inp : Inp) : List (Shift × Shift) :=
  (dayKeys (empty_shifts inp)).flatMap (fun d =>
    (allPairs (shifts_by_day (empty_shifts inp) d)).filter (fun p => !is24Pair p.1 p.2))

/-- Sorting key order of `empty_shifts_sorted` (solver.py lines 142-145):
compare shifts by day number. -/
def byDay (a b : Shift) : Prop := a.day ≤ b.day

instance : DecidableRel byDay := fun a b => Nat.decLe a.day b.day

instance : IsTotal Shift byDay := ⟨fun a b => Nat.le_total a.day b.day⟩

instance : IsTrans Shift byDay := ⟨fun _ _ _ hab hbc => Nat.le_trans hab hbc⟩

/-- Python's `sorted(..., key=day)` (a stable sort by day number). -/
def sortByDay (l : List Shift) : List Shift := List.insertionSort byDay l

/-- The inner loop of the spacing scan (solver.py lines 153-167): walk the
later shifts of the sorted list, stop (`break`) at the first one whose day
gap reaches the threshold, and pair every earlier one with `s1`.
Days are sorted ascending, so `day2 - day1` is the Python difference. -/
def spacingScanFrom (t : Nat) (s1 : Shift) : List Shift → List (Shift × Shift)
  | [] => []
  | s2 :: rest =>
    if t ≤ s2.day - s1.day then []
    else (s1, s2) :: spacingScanFrom t s1 rest

/-- The outer loop of the spacing scan. -/
def spacingScan (t : Nat) : List Shift → List (Shift × Shift)
  | [] => []
  | s1 :: rest => spacingScanFrom t s1 rest ++ spacingScan t rest

/-- List `bad_spacing_pairs`: the scan over the day-sorted empty shifts. -/
def bad_spacing_pairs (inp : Inp) : List (Shift × Shift) :=
  spacingScan inp.settings.spacing_days_threshold (sortByDay (empty_shifts inp))

/-- First worker record with the given name (dict lookups keyed by unique
worker names). -/
def findWorker (inp : Inp) (w : String) : Option WorkerRec :=
  inp.workers_list.find? (fun r => r.name == w)

/-- Expand a type+day token to a full shift name by appending a unit. -/
def mkShift (tok : Token) (u : String) : Shift :=
  ⟨tok.1, tok.2, u⟩

/-- STEP 7, `worker_cannot`: the `cannot_work` tokens of a worker expanded
across every unit (`for unit in units_list: for old_shift in old_forbidden`). -/
def worker_cannot (inp : Inp) (w : String) : List Shift :=
  ((findWorker inp w).map (fun r =>
    inp.units_list.flatMap (fun u => r.cannot_work.map (fun tok => mkShift tok u)))).getD []

/-- STEP 7, `worker_prefers`: the `prefers` tokens expanded across every
unit. -/
def worker_prefers (inp : Inp) (w : String) : List Shift :=
  ((findWorker inp w).map (fun r =>
    inp.units_list.flatMap (fun u => r.prefers.map (fun tok => mkShift tok u)))).getD []

/-- STEP 7, `worker_preferred_units`. -/
def worker_preferred_units (inp : Inp) (w : String) : List String :=
  ((findWorker inp w).map (fun r => r.prefer_units)).getD []

/-- STEP 7, the `max_24hr` dict. -/
def max_24hr_of (inp : Inp) (w : String) : Nat :=
  ((findWorker inp w).map (fun r => r.max_24hr)).getD 0

/-- STEP 7, the `max_weekends` dict. -/
def max_weekends_of (inp : Inp) (w : String) : Nat :=
  ((findWorker inp w).map (fun r => r.max_weekends)).getD 0

/-- CONSTRAINT 2's range lookup: `next(worker["shifts_to_fill"] ...)`. -/
def shiftRange (inp : Inp) (w : String) : Nat × Nat :=
  ((findWorker inp w).map (fun r => r.shifts_to_fill)).getD (0, 0)

/-- STEP 10: a decision variable is created for `(w, shift)` exactly when
the shift is not in `worker_cannot_set[w]`; otherwise the table holds the
constant `0`. -/
def variableCreated (inp : Inp) (w : String) (s : Shift) : Prop :=
  ¬ s ∈ worker_cannot inp w

instance (inp : Inp) (w : String) (s : Shift) : Decidable (variableCreated inp w s) :=
  instDecidableNot

/-- The value of the `assign_vars[w][shift]` table entry under a valuation
`x` of the real variables: pruned entries are the constant `0` (`false`). -/
def assignVal (inp : Inp) (x : String → Shift → Bool) (w : String) (s : Shift) : Bool :=
  if s ∈ worker_cannot inp w then false else x w s

/-- A valuation of all decision variables of the model: the assignment
variables, the `24hr` auxiliaries and the `SpacingBad` auxiliaries. -/
structure Sol where
  x : String → Shift → Bool
  y : String → Shift × Shift → Bool
  z : String → Shift × Shift → Bool

/-- CONSTRAINT 1: each empty shift is taken by at most one worker. -/
def constraint1 (inp : Inp) (v : String → Shift → Bool) : Prop :=
  ∀ s ∈ empty_shifts inp, (workers inp).countP (fun w => v w s) ≤ 1

/-- CONSTRAINT 2: each worker's number of assigned empty shifts lies in
that worker's `shifts_to_fill` range. -/
def constraint2 (inp : Inp) (v : String → Shift → Bool) : Prop :=
  ∀ w ∈ workers inp,
    (empty_shifts inp).countP (fun s => v w s) ≤ (shiftRange inp w).2 ∧
    (shiftRange inp w).1 ≤ (empty_shifts inp).countP (fun s => v w s)

/-- CONSTRAINT 3: no Night → Day on the next day. -/
def constraint3 (inp : Inp) (v : String → Shift → Bool) : Prop :=
  ∀ p ∈ bad_night_to_day_pairs inp, ∀ w ∈ workers inp,
    ¬(v w p.1 = true ∧ v w p.2 = true)

/-- CONSTRAINT 4: no adjacent Nights (when the setting is enabled). -/
def constraint4 (inp : Inp) (v : String → Shift → Bool) : Prop :=
  inp.settings.enforce_no_adj_nights = true →
    ∀ p ∈ bad_adjacent_nights_pairs inp, ∀ w ∈ workers inp,
      ¬(v w p.1 = true ∧ v w p.2 = true)

/-- CONSTRAINT 5: no adjacent Days (when the setting is enabled). -/
def constraint5 (inp : Inp) (v : String → Shift → Bool) : Prop :=
  inp.settings.enforce_no_adj_days = true →
    ∀ p ∈ bad_adjacent_days_pairs inp, ∀ w ∈ workers inp,
      ¬(v w p.1 = true ∧ v w p.2 = true)

/-- CONSTRAINT 6: no two same-day shifts other than an allowed 24hr pair. -/
def constraint6 (inp : Inp) (v : String → Shift → Bool) : Prop :=
  ∀ p ∈ bad_same_day_non24hr_pairs inp, ∀ w ∈ workers inp,
    ¬(v w p.1 = true ∧ v w p.2 = true)

/-- CONSTRAINT 7: the three linking inequalities
`aux ≥ a + b - 1`, `aux ≤ a`, `aux ≤ b` force, on binaries, exactly
`aux = a AND b` (the Day/Night role split in the source is irrelevant
because conjunction is symmetric). -/
def constraint7 (inp : Inp) (v : String → Shift → Bool) (y : String → Shift × Shift → Bool) : Prop :=
  ∀ p ∈ twenty_four_hour_shift_pairs inp, ∀ w ∈ workers inp,
    y w p = (v w p.1 && v w p.2)

/-- CONSTRAINT 8: per-worker cap on 24-hour shifts. -/
def constraint8 (inp : Inp) (y : String → Shift × Shift → Bool) : Prop :=
  ∀ w ∈ workers inp,
    (twenty_four_hour_shift_pairs inp).countP (fun p => y w p) ≤ max_24hr_of inp w

/-- CONSTRAINT 9: per-worker cap on weekend shifts. -/
def constraint9 (inp : Inp) (v : String → Shift → Bool) : Prop :=
  ∀ w ∈ workers inp,
    (empty_weekend_shifts inp).countP (fun s => v w s) ≤ max_weekends_of inp w

/-- CONSTRAINT 10: spacing auxiliaries are the AND of their two
assignment variables (same linearization as constraint 7). -/
def constraint10 (inp : Inp) (v : String → Shift → Bool) (z : String → Shift × Shift → Bool) : Prop :=
  ∀ p ∈ bad_spacing_pairs inp, ∀ w ∈ workers inp,
    z w p = (v w p.1 && v w p.2)

/-- CONSTRAINT 11: forbidden empty shifts are pinned to zero.  (In the
pruned model these table entries are already the constant `0`, so the
added inequality `0 ≤ 0` is vacuous; stated on the valuation it is the
zeroing the source writes.) -/
def constraint11 (inp : Inp) (v : String → Shift → Bool) : Prop :=
  ∀ w ∈ workers inp, ∀ f ∈ worker_cannot inp w,
    f ∈ empty_shifts inp → v w f = false

/-- The per-worker list of pre-assigned shifts of CONSTRAINT 12
(`pre_assigned`), as shift names. -/
def pre_assigned (inp : Inp) (w : String) : List Shift :=
  (inp.shifts_list.filter (fun r => r.assigned_worker == some w)).map (fun r => r.name)

/-- The blocking conditions of CONSTRAINT 12 for a pre-assigned shift `p`
and an empty shift `e` (solver.py lines 414-470; the source adds the four
adjacency rules twice — in two identical loops — which is the same
constraint set).  `emp_day == pre_day - 1` is rendered as
`e.day + 1 = p.day`, its integer equivalent.  The 24hr test
`{emp_type, pre_type} == {"Day", "Night"}` is `e.stype ≠ p.stype` on the
two-valued type. -/
def blocks12 (inp : Inp) (w : String) (p e : Shift) : Prop :=
  (p.stype = SType.Night ∧ e.stype = SType.Day ∧ e.day = p.day + 1) ∨
  (e.stype = SType.Night ∧ p.stype = SType.Day ∧ p.day = e.day + 1) ∨
  (inp.settings.enforce_no_adj_nights = true ∧ p.stype = SType.Night ∧
    e.stype = SType.Night ∧ (e.day = p.day + 1 ∨ e.day + 1 = p.day)) ∨
  (inp.settings.enforce_no_adj_days = true ∧ p.stype = SType.Day ∧
    e.stype = SType.Day ∧ (e.day = p.day + 1 ∨ e.day + 1 = p.day)) ∨
  (max_24hr_of inp w = 0 ∧ e.day = p.day ∧ e.unit = p.unit ∧ e.stype ≠ p.stype)

instance (inp : Inp) (w : String) (p e : Shift) : Decidable (blocks12 inp w p e) := by
  unfold blocks12; infer_instance

/-- CONSTRAINT 12: interaction of pre-assigned shifts with empty shifts. -/
def constraint12 (inp : Inp) (v : String → Shift → Bool) : Prop :=
  ∀ w ∈ workers inp, ∀ p ∈ pre_assigned inp w, ∀ e ∈ empty_shifts inp,
    blocks12 inp w p e → v w e = false

/-- The whole constraint set of STEP 12 for a valuation `v` of the
assignment-variable table and valuations `y`, `z` of the auxiliaries. -/
def constraintsCore (inp : Inp) (v : String → Shift → Bool)
    (y z : String → Shift × Shift → Bool) : Prop :=
  constraint1 inp v ∧ constraint2 inp v ∧ constraint3 inp v ∧
  constraint4 inp v ∧ constraint5 inp v ∧ constraint6 inp v ∧
  constraint7 inp v y ∧ constraint8 inp y ∧ constraint9 inp v ∧
  constraint10 inp v z ∧ constraint11 inp v ∧ constraint12 inp v

/-- The model as the source builds it: the variable table mixes real
variables (valued by `sol.x`) with constant zeros at pruned entries. -/
def Satisfies (inp : Inp) (sol : Sol) : Prop :=
  constraintsCore inp (assignVal inp sol.x) sol.y sol.z

/-- The same model built without STEP 10's pruning: every (worker, empty
shift) combination gets a real variable, and constraint 11 does the
zeroing. -/
def SatisfiesUnpruned (inp : Inp) (sol : Sol) : Prop :=
  constraintsCore inp sol.x sol.y sol.z

/-- STEP 11: the objective value of a valuation (not used by any
constraint; the solver maximizes it). -/
def objectiveValue (inp : Inp) (sol : Sol) : Int :=
  inp.settings.points_filled *
    (((workers inp).map (fun w =>
      ((empty_shifts inp).countP (fun s => assignVal inp sol.x w s) : Int))).sum) +
  inp.settings.points_preferred *
    (((workers inp).map (fun w =>
      (((empty_shifts inp).filter (fun s => decide (s ∈ worker_prefers inp w))).countP
        (fun s => assignVal inp sol.x w s) : Int))).sum) +
  inp.settings.points_preferred_unit *
    (((workers inp).map (fun w =>
      (((empty_shifts inp).filter (fun s => decide (s.unit ∈ worker_preferred_units inp w))).countP
        (fun s => assignVal inp sol.x w s) : Int))).sum) +
  inp.settings.points_spacing *
    (((workers inp).map (fun w =>
      ((bad_spacing_pairs inp).countP (fun p => sol.z w p) : Int))).sum) +
  inp.settings.points_24hr *
    (((workers inp).map (fun w =>
      ((twenty_four_hour_shift_pairs inp).countP (fun p => sol.y w p) : Int))).sum)

/-- STEP 15: the worker written into `assignments[shift]` — the loop over
`workers` overwrites, so the last worker whose (non-pruned) variable is 1
wins; `none` when no variable is 1. -/
def extractWorker (inp : Inp) (sol : Sol) (s : Shift) : Option String :=
  ((workers inp).filter (fun w => assignVal inp sol.x w s)).getLast?

/-- The extraction the unpruned model would perform (no `isinstance`
filter: every entry is a real variable). -/
def extractWorkerUnpruned (inp : Inp) (sol : Sol) (s : Shift) : Option String :=
  ((workers inp).filter (fun w => sol.x w s)).getLast?

/-- The `assignments` dict after STEP 15: entries of empty shifts are
updated with the extracted worker, pre-assigned entries are untouched. -/
def finalAssignments (inp : Inp) (sol : Sol) : List (Shift × Option String) :=
  (initAssignments inp).map (fun pr =>
    if pr.2 = none then (pr.1, extractWorker inp sol pr.1) else pr)

/-- STEP 16 grouping: the distinct workers appearing in the assignments
mapping. -/
def assignedWorkers (asg : List (Shift × Option String)) : List String :=
  (asg.filterMap (fun pr => pr.2)).dedup

/-- STEP 16 grouping: `worker_shifts[worker]`, in mapping order. -/
def shiftsOfWorker (asg : List (Shift × Option String)) (w : String) : List Shift :=
  (asg.filter (fun pr => pr.2 == some w)).map (fun pr => pr.1)

/-- The bad-spacing test of STEP 16 on the consecutive pairs of one
worker's day-sorted shift list: day gap strictly below the threshold. -/
def countCloseAdj (t : Nat) : List Shift → Nat
  | a :: b :: rest => (if b.day - a.day < t then 1 else 0) + countCloseAdj t (b :: rest)
  | _ => 0

/-- The 24-hour test of STEP 16 on the consecutive pairs of one worker's
day-sorted shift list: same day and same unit. -/
def count24Adj : List Shift → Nat
  | a :: b :: rest =>
    (if a.day = b.day ∧ a.unit = b.unit then 1 else 0) + count24Adj (b :: rest)
  | _ => 0

/-- STEP 16: `bad_spacing_count`. -/
def bad_spacing_count (asg : List (Shift × Option String)) (t : Nat) : Nat :=
  ((assignedWorkers asg).map (fun w => countCloseAdj t (sortByDay (shiftsOfWorker asg w)))).sum

/-- STEP 16: `twenty_four_count`. -/
def twenty_four_count (asg : List (Shift × Option String)) : Nat :=
  ((assignedWorkers asg).map (fun w => count24Adj (sortByDay (shiftsOfWorker asg w)))).sum

/-- STEP 16: `preferences_count`. -/
def preferences_count (inp : Inp) (asg : List (Shift × Option String)) : Nat :=
  asg.countP (fun pr =>
    match pr.2 with
    | some w => decide (pr.1 ∈ worker_prefers inp w)
    | none => false)

/-- The value returned by `solve_rota`: the assignments mapping plus the
summary record. -/
structure RotaResult where
  assignments : List (Shift × Option String)
  preferences_count : Nat
  twenty_four_count : Nat
  bad_spacing_count : Nat
  status : String
deriving DecidableEq, Repr

/-- Function `solve_rota`, with the external solver abstracted at its boundary:
`solverStatus` is the status string PuLP reports for the assembled model
and `sol` the variable values it returns.  STEP 8 short-circuits before
the model exists; STEP 14 dispatches on the status; STEPS 15-18 extract
the solution and the summary. -/
def solve_rota (inp : Inp) (solverStatus : String) (sol : Sol) : RotaResult :=
  if empty_shifts inp = [] ∨ workers inp = [] then
    ⟨initAssignments inp, 0, 0, 0, "Nothing to assign"⟩
  else if solverStatus = "Infeasible" then
    ⟨initAssignments inp, 0, 0, 0, "Infeasible"⟩
  else if solverStatus = "Optimal" ∨ solverStatus = "Not Solved" then
    ⟨finalAssignments inp sol,
      preferences_count inp (finalAssignments inp sol),
      twenty_four_count (finalAssignments inp sol),
      bad_spacing_count (finalAssignments inp sol) inp.settings.spacing_days_threshold,
      solverStatus⟩
  else
    ⟨initAssignments inp, 0, 0, 0, solverStatus⟩

/-- STEP 13: the wall-clock time limit handed to the solver backend.  The
source sets `timeLimit_setting = 6000` directly. -/
def timeLimit_setting : Nat := 6000

/-- The time limit `solve_rota` submits with, as a function of the
settings dictionary it received (modelled as a key/value list): the
source never reads the dictionary here. -/
def submittedTimeLimit (_settings : List (String × Int)) : Nat :=
  timeLimit_setting

/-- The keys of the settings dictionary assembled by `create_rota` in
hospital_rota_app.py (PART A) — the record the caller passes to
`solve_rota`. -/
def createRotaSettingsKeys : List String :=
  ["points_filled", "points_preferred", "points_spacing",
   "spacing_days_threshold", "points_24hr", "enforce_no_adj_nights",
   "enforce_no_adj_days", "points_preferred_unit"]

section Decidability

instance (inp : Inp) (v : String → Shift → Bool) : Decidable (constraint1 inp v) := by
  unfold constraint1; infer_instance

instance (inp : Inp) (v : String → Shift → Bool) : Decidable (constraint2 inp v) := by
  unfold constraint2; infer_instance

instance (inp : Inp) (v : String → Shift → Bool) : Decidable (constraint3 inp v) := by
  unfold constraint3; infer_instance

instance (inp : Inp) (v : String → Shift → Bool) : Decidable (constraint4 inp v) := by
  unfold constraint4; infer_instance

instance (inp : Inp) (v : String → Shift → Bool) : Decidable (constraint5 inp v) := by
  unfold constraint5; infer_instance

instance (inp : Inp) (v : String → Shift → Bool) : Decidable (constraint6 inp v) := by
  unfold constraint6; infer_instance

instance (inp : Inp) (v : String → Shift → Bool) (y : String → Shift × Shift → Bool) :
    Decidable (constraint7 inp v y) := by
  unfold constraint7; infer_instance

instance (inp : Inp) (y : String → Shift × Shift → Bool) : Decidable (constraint8 inp y) := by
  unfold constraint8; infer_instance

instance (inp : Inp) (v : String → Shift → Bool) : Decidable (constraint9 inp v) := by
  unfold constraint9; infer_instance

instance (inp : Inp) (v : String → Shift → Bool) (z : String → Shift × Shift → Bool) :
    Decidable (constraint10 inp v z) := by
  unfold constraint10; infer_instance

instance (inp : Inp) (v : String → Shift → Bool) : Decidable (constraint11 inp v) := by
  unfold constraint11; infer_instance

instance (inp : Inp) (v : String → Shift → Bool) : Decidable (constraint12 inp v) := by
  unfold constraint12; infer_instance

instance (inp : Inp) (v : String → Shift → Bool) (y z : String → Shift × Shift → Bool) :
    Decidable (constraintsCore inp v y z) := by
  unfold constraintsCore; infer_instance

instance (inp : Inp) (sol : Sol) : Decidable (Satisfies inp sol) := by
  unfold Satisfies; infer_instance

instance (inp : Inp) (sol : Sol) : Decidable (SatisfiesUnpruned inp sol) := by
  unfold SatisfiesUnpruned; infer_instance

end Decidability

section ClaimLevelDefinitions

/-- The conflicting-pair relation of claim C1 over two empty shifts,
stated as the claim words it (symmetric in the two shifts). -/
def conflictPair (st : Settings) (a b : Shift) : Prop :=
  (a.stype = SType.Night ∧ b.stype = SType.Day ∧ b.day = a.day + 1) ∨
  (b.stype = SType.Night ∧ a.stype = SType.Day ∧ a.day = b.day + 1) ∨
  (st.enforce_no_adj_nights = true ∧ a.stype = SType.Night ∧ b.stype = SType.Night ∧
    (b.day = a.day + 1 ∨ a.day = b.day + 1)) ∨
  (st.enforce_no_adj_days = true ∧ a.stype = SType.Day ∧ b.stype = SType.Day ∧
    (b.day = a.day + 1 ∨ a.day = b.day + 1)) ∨
  (a.day = b.day ∧ a ≠ b ∧ ¬(a.unit = b.unit ∧ a.stype ≠ b.stype))

instance (st : Settings) (a b : Shift) : Decidable (conflictPair st a b) := by
  unfold conflictPair; infer_instance

/-- The spacing-pair set as claim C3 words it: the unordered pairs of
empty shifts (taken in day-sorted order) lying on different days with day
gap strictly below the threshold. -/
def claimSpacingPairs (inp : Inp) : List (Shift × Shift) :=
  (allPairs (sortByDay (empty_shifts inp))).filter
    (fun p => decide (¬ p.1.day = p.2.day ∧
      p.2.day - p.1.day < inp.settings.spacing_days_threshold))

/-- The naive all-pairs spacing definition with the "different days"
restriction removed: every later-shift pair of the day-sorted empty
shifts whose day gap is strictly below the threshold. -/
def naiveSpacingPairs (inp : Inp) : List (Shift × Shift) :=
  (allPairs (sortByDay (empty_shifts inp))).filter
    (fun p => decide (p.2.day - p.1.day < inp.settings.spacing_days_threshold))

/-- The spacing-violation count as claim C2 words it: per worker, all
unordered pairs of that worker's shifts with day gap strictly below the
threshold. -/
def claimSpacingViolationCount (asg : List (Shift × Option String)) (t : Nat) : Nat :=
  ((assignedWorkers asg).map (fun w =>
    (allPairs (shiftsOfWorker asg w)).countP
      (fun p => decide (Nat.dist p.1.day p.2.day < t)))).sum

/-- The raw `cannot_work` token list of a worker (claim C9's
`forbidden_shifts`). -/
def cannotTokens (inp : Inp) (w : String) : List Token :=
  ((findWorker inp w).map (fun r => r.cannot_work)).getD []

/-- The all-zero valuation (no variable set). -/
def trivSol : Sol :=
  { x := fun _ _ => false, y := fun _ _ => false, z := fun _ _ => false }

/-- C1 witness instance: two empty Night/Day shifts on consecutive days. -/
def c1Inp : Inp :=
  { shifts_list :=
      [⟨⟨SType.Night, 2, "A"⟩, [], none⟩, ⟨⟨SType.Day, 3, "A"⟩, [], none⟩],
    workers_list := [⟨"Walt", (0, 1), [], [], [], 100, 100⟩],
    units_list := ["A"],
    settings := {} }

/-- C2 counterexample instance: "Carl" holds three pre-assigned shifts on
days 1, 3, 5 (pairwise gaps 2, 2 and 4, all below the threshold 5) and one
far-away empty shift keeps the solver path alive. -/
def c2Inp : Inp :=
  { shifts_list :=
      [⟨⟨SType.Day, 1, "A"⟩, [], some "Carl"⟩,
       ⟨⟨SType.Day, 3, "A"⟩, [], some "Carl"⟩,
       ⟨⟨SType.Day, 5, "A"⟩, [], some "Carl"⟩,
       ⟨⟨SType.Day, 20, "A"⟩, [], none⟩],
    workers_list := [⟨"Carl", (0, 1), [], [], [], 100, 100⟩],
    units_list := ["A"],
    settings := {} }

/-- C2 scenario-E instance: two empty shifts 3 days apart. -/
def c2eInp : Inp :=
  { shifts_list :=
      [⟨⟨SType.Day, 1, "A"⟩, [], none⟩, ⟨⟨SType.Day, 4, "A"⟩, [], none⟩],
    workers_list := [⟨"Eve", (0, 2), [], [], [], 100, 100⟩],
    units_list := ["A"],
    settings := {} }

/-- C2 scenario-E valuation: "Eve" takes every empty shift; the spacing
auxiliary follows its linking constraints. -/
def c2eSol : Sol :=
  { x := fun w _ => w == "Eve",
    y := fun _ _ => false,
    z := fun w _ => w == "Eve" }

/-- C2 witness mapping: one worker holding two shifts 3 days apart. -/
def c2wAsg : List (Shift × Option String) :=
  [(⟨SType.Day, 7, "B"⟩, some "Wit"), (⟨SType.Day, 10, "B"⟩, some "Wit")]

/-- C3 counterexample instance: two empty shifts on the same day. -/
def c3Inp : Inp :=
  { shifts_list :=
      [⟨⟨SType.Day, 1, "A"⟩, [], none⟩, ⟨⟨SType.Night, 1, "A"⟩, [], none⟩],
    workers_list := [],
    units_list := ["A"],
    settings := {} }

/-- C5 witness instance (scenario C): one shift, zero workers. -/
def c5Inp : Inp :=
  { shifts_list := [⟨⟨SType.Day, 2, "B"⟩, [], none⟩],
    workers_list := [],
    units_list := ["B"],
    settings := {} }

/-- C6 witness instance (scenario D): "Dana" has `max_24hr = 0` and a
pre-assigned Day shift on day 5, unit "A"; an empty Night shift exists on
the same day and unit. -/
def c6Inp : Inp :=
  { shifts_list :=
      [⟨⟨SType.Day, 5, "A"⟩, [], some "Dana"⟩,
       ⟨⟨SType.Night, 5, "A"⟩, [], none⟩],
    workers_list := [⟨"Dana", (0, 1), [], [], [], 0, 100⟩],
    units_list := ["A"],
    settings := {} }

/-- C7 scenario-B instance: "Bob" needs at least 5 shifts but only 3
empty shifts exist. -/
def c7Inp : Inp :=
  { shifts_list :=
      [⟨⟨SType.Day, 1, "A"⟩, [], none⟩,
       ⟨⟨SType.Day, 5, "A"⟩, [], none⟩,
       ⟨⟨SType.Day, 9, "A"⟩, [], none⟩],
    workers_list := [⟨"Bob", (5, 9), [], [], [], 100, 100⟩],
    units_list := ["A"],
    settings := {} }

/-- C8 counterexample instance: "Alice" has range [0, 0] but already
holds a pre-assigned shift; one distant empty shift keeps the solver path
alive. -/
def c8Inp : Inp :=
  { shifts_list :=
      [⟨⟨SType.Day, 1, "A"⟩, [], some "Alice"⟩,
       ⟨⟨SType.Day, 3, "A"⟩, [], none⟩],
    workers_list := [⟨"Alice", (0, 0), [], [], [], 100, 100⟩],
    units_list := ["A"],
    settings := {} }

/-- C8 witness instance: one empty shift, worker range [1, 1]. -/
def c8wInp : Inp :=
  { shifts_list := [⟨⟨SType.Day, 2, "C"⟩, [], none⟩],
    workers_list := [⟨"Wren", (1, 1), [], [], [], 100, 100⟩],
    units_list := ["C"],
    settings := {} }

/-- C8 witness valuation: "Wren" takes the one empty shift. -/
def c8wSol : Sol :=
  { x := fun w _ => w == "Wren",
    y := fun _ _ => false,
    z := fun _ _ => false }

/-- C9 witness instance: "Uma" cannot work Day 3 in any unit; two empty
shifts on day 3, one forbidden and one allowed. -/
def c9Inp : Inp :=
  { shifts_list :=
      [⟨⟨SType.Day, 3, "A"⟩, [], none⟩,
       ⟨⟨SType.Night, 3, "A"⟩, [], none⟩],
    workers_list := [⟨"Uma", (0, 1), [(SType.Day, 3)], [], [], 100, 100⟩],
    units_list := ["A"],
    settings := {} }

/-- C10 witness instance: a worker holding a same-day same-unit pair. -/
def c10Inp : Inp :=
  { shifts_list :=
      [⟨⟨SType.Day, 4, "A"⟩, [], some "Pia"⟩,
       ⟨⟨SType.Night, 4, "A"⟩, [], some "Pia"⟩,
       ⟨⟨SType.Day, 15, "A"⟩, [], none⟩],
    workers_list := [⟨"Pia", (0, 1), [], [], [], 100, 100⟩],
    units_list := ["A"],
    settings := {} }

end ClaimLevelDefinitions

section PairLemmas

theorem mem_shifts_by_day {es : List Shift} {s : Shift} {d : Nat} :
    s ∈ shifts_by_day es d ↔ s ∈ es ∧ s.day = d := by
  simp [shifts_by_day]

theorem mem_dayKeys {es : List Shift} {s : Shift} (h : s ∈ es) : s.day ∈ dayKeys es := by
  simp only [dayKeys, List.mem_dedup, List.mem_map]
  exact ⟨s, h, rfl⟩

theorem nightToDay_intro {inp : Inp} {s1 s2 : Shift}
    (h1 : s1 ∈ empty_shifts inp) (h2 : s2 ∈ empty_shifts inp)
    (ht1 : s1.stype = SType.Night) (ht2 : s2.stype = SType.Day)
    (hd : s2.day = s1.day + 1) :
    (s1, s2) ∈ bad_night_to_day_pairs inp := by
  unfold bad_night_to_day_pairs nightToDayOn
  rw [List.mem_flatMap]
  refine ⟨s1.day, mem_dayKeys h1, ?_⟩
  rw [List.mem_flatMap]
  refine ⟨s1, mem_shifts_by_day.mpr ⟨h1, rfl⟩, ?_⟩
  rw [List.mem_filterMap]
  exact ⟨s2, mem_shifts_by_day.mpr ⟨h2, hd⟩, by simp [ht1, ht2]⟩

theorem nightNight_intro {inp : Inp} {s1 s2 : Shift}
    (h1 : s1 ∈ empty_shifts inp) (h2 : s2 ∈ empty_shifts inp)
    (ht1 : s1.stype = SType.Night) (ht2 : s2.stype = SType.Night)
    (hd : s2.day = s1.day + 1) :
    (s1, s2) ∈ bad_adjacent_nights_pairs inp := by
  unfold bad_adjacent_nights_pairs nightNightOn
  rw [List.mem_flatMap]
  refine ⟨s1.day, mem_dayKeys h1, ?_⟩
  rw [List.mem_flatMap]
  refine ⟨s1, mem_shifts_by_day.mpr ⟨h1, rfl⟩, ?_⟩
  rw [List.mem_filterMap]
  exact ⟨s2, mem_shifts_by_day.mpr ⟨h2, hd⟩, by simp [ht1, ht2]⟩

theorem dayDay_intro {inp : Inp} {s1 s2 : Shift}
    (h1 : s1 ∈ empty_shifts inp) (h2 : s2 ∈ empty_shifts inp)
    (ht1 : s1.stype = SType.Day) (ht2 : s2.stype = SType.Day)
    (hd : s2.day = s1.day + 1) :
    (s1, s2) ∈ bad_adjacent_days_pairs inp := by
  unfold bad_adjacent_days_pairs dayDayOn
  rw [List.mem_flatMap]
  refine ⟨s1.day, mem_dayKeys h1, ?_⟩
  rw [List.mem_flatMap]
  refine ⟨s1, mem_shifts_by_day.mpr ⟨h1, rfl⟩, ?_⟩
  rw [List.mem_filterMap]
  exact ⟨s2, mem_shifts_by_day.mpr ⟨h2, hd⟩, by simp [ht1, ht2]⟩

theorem mem_of_mem_allPairs {α : Type} {a b : α} :
    ∀ {l : List α}, (a, b) ∈ allPairs l → a ∈ l ∧ b ∈ l
  | [], h => by cases h
  | c :: rest, h => by
    rw [allPairs, List.mem_append] at h
    rcases h with h | h
    · rcases List.mem_map.mp h with ⟨b', hb', heq⟩
      cases heq
      exact ⟨List.mem_cons_self .., List.mem_cons_of_mem _ hb'⟩
    · rcases mem_of_mem_allPairs h with ⟨ha, hb⟩
      exact ⟨List.mem_cons_of_mem _ ha, List.mem_cons_of_mem _ hb⟩

theorem mem_allPairs_of_mem {α : Type} {a b : α} :
    ∀ {l : List α}, a ∈ l → b ∈ l → a ≠ b →
      (a, b) ∈ allPairs l ∨ (b, a) ∈ allPairs l
  | [], ha, _, _ => by cases ha
  | c :: rest, ha, hb, hne => by
    rw [List.mem_cons] at ha hb
    rcases ha with rfl | ha
    · rcases hb with rfl | hb
      · exact absurd rfl hne
      · exact Or.inl (by
          rw [allPairs, List.mem_append]
          exact Or.inl (List.mem_map.mpr ⟨b, hb, rfl⟩))
    · rcases hb with rfl | hb
      · exact Or.inr (by
          rw [allPairs, List.mem_append]
          exact Or.inl (List.mem_map.mpr ⟨a, ha, rfl⟩))
      · rcases mem_allPairs_of_mem ha hb hne with h | h
        · exact Or.inl (by rw [allPairs, List.mem_append]; exact Or.inr h)
        · exact Or.inr (by rw [allPairs, List.mem_append]; exact Or.inr h)

theorem sameDay_intro {inp : Inp} {s1 s2 : Shift}
    (h1 : s1 ∈ empty_shifts inp) (h2 : s2 ∈ empty_shifts inp)
    (hne : s1 ≠ s2) (hd : s1.day = s2.day) (h24 : is24Pair s1 s2 = false) :
    (s1, s2) ∈ bad_same_day_non24hr_pairs inp ∨
    (s2, s1) ∈ bad_same_day_non24hr_pairs inp := by
  have h1' : s1 ∈ shifts_by_day (empty_shifts inp) s1.day :=
    mem_shifts_by_day.mpr ⟨h1, rfl⟩
  have h2' : s2 ∈ shifts_by_day (empty_shifts inp) s1.day :=
    mem_shifts_by_day.mpr ⟨h2, hd.symm⟩
  have h24' : is24Pair s2 s1 = false := by
    unfold is24Pair at h24 ⊢
    simp only [Bool.and_eq_false_iff, decide_eq_false_iff_not] at h24 ⊢
    rcases h24 with h | h
    · exact Or.inl (fun e => h e.symm)
    · exact Or.inr (fun e => h (Ne.symm e))
  rcases mem_allPairs_of_mem h1' h2' hne with h | h
  · refine Or.inl ?_
    unfold bad_same_day_non24hr_pairs
    rw [List.mem_flatMap]
    refine ⟨s1.day, mem_dayKeys h1, ?_⟩
    rw [List.mem_filter]
    exact ⟨h, by simp [h24]⟩
  · refine Or.inr ?_
    unfold bad_same_day_non24hr_pairs
    rw [List.mem_flatMap]
    refine ⟨s1.day, mem_dayKeys h1, ?_⟩
    rw [List.mem_filter]
    exact ⟨h, by simp [h24']⟩

end PairLemmas

section ComponentLemmas

theorem nightToDay_sub {inp : Inp} {p : Shift × Shift}
    (h : p ∈ bad_night_to_day_pairs inp) :
    p.1 ∈ empty_shifts inp ∧ p.2 ∈ empty_shifts inp := by
  unfold bad_night_to_day_pairs nightToDayOn at h
  rw [List.mem_flatMap] at h
  rcases h with ⟨d, _, h⟩
  rw [List.mem_flatMap] at h
  rcases h with ⟨s1, hs1, h⟩
  rw [List.mem_filterMap] at h
  rcases h with ⟨s2, hs2, heq⟩
  split at heq
  · cases heq
    exact ⟨(mem_shifts_by_day.mp hs1).1, (mem_shifts_by_day.mp hs2).1⟩
  · cases heq

theorem nightNight_sub {inp : Inp} {p : Shift × Shift}
    (h : p ∈ bad_adjacent_nights_pairs inp) :
    p.1 ∈ empty_shifts inp ∧ p.2 ∈ empty_shifts inp := by
  unfold bad_adjacent_nights_pairs nightNightOn at h
  rw [List.mem_flatMap] at h
  rcases h with ⟨d, _, h⟩
  rw [List.mem_flatMap] at h
  rcases h with ⟨s1, hs1, h⟩
  rw [List.mem_filterMap] at h
  rcases h with ⟨s2, hs2, heq⟩
  split at heq
  · cases heq
    exact ⟨(mem_shifts_by_day.mp hs1).1, (mem_shifts_by_day.mp hs2).1⟩
  · cases heq

theorem dayDay_sub {inp : Inp} {p : Shift × Shift}
    (h : p ∈ bad_adjacent_days_pairs inp) :
    p.1 ∈ empty_shifts inp ∧ p.2 ∈ empty_shifts inp := by
  unfold bad_adjacent_days_pairs dayDayOn at h
  rw [List.mem_flatMap] at h
  rcases h with ⟨d, _, h⟩
  rw [List.mem_flatMap] at h
  rcases h with ⟨s1, hs1, h⟩
  rw [List.mem_filterMap] at h
  rcases h with ⟨s2, hs2, heq⟩
  split at heq
  · cases heq
    exact ⟨(mem_shifts_by_day.mp hs1).1, (mem_shifts_by_day.mp hs2).1⟩
  · cases heq

theorem sameDayPair_sub {inp : Inp} {p : Shift × Shift}
    (h : p ∈ bad_same_day_non24hr_pairs inp) :
    p.1 ∈ empty_shifts inp ∧ p.2 ∈ empty_shifts inp := by
  unfold bad_same_day_non24hr_pairs at h
  rw [List.mem_flatMap] at h
  rcases h with ⟨d, _, h⟩
  rw [List.mem_filter] at h
  obtain ⟨a, b⟩ := p
  rcases mem_of_mem_allPairs h.1 with ⟨ha, hb⟩
  exact ⟨(mem_shifts_by_day.mp ha).1, (mem_shifts_by_day.mp hb).1⟩

theorem twentyFourPair_sub {inp : Inp} {p : Shift × Shift}
    (h : p ∈ twenty_four_hour_shift_pairs inp) :
    p.1 ∈ empty_shifts inp ∧ p.2 ∈ empty_shifts inp := by
  unfold twenty_four_hour_shift_pairs at h
  rw [List.mem_flatMap] at h
  rcases h with ⟨d, _, h⟩
  rw [List.mem_filter] at h
  obtain ⟨a, b⟩ := p
  rcases mem_of_mem_allPairs h.1 with ⟨ha, hb⟩
  exact ⟨(mem_shifts_by_day.mp ha).1, (mem_shifts_by_day.mp hb).1⟩

theorem spacingScanFrom_sub {t : Nat} {s1 a b : Shift} :
    ∀ {l : List Shift}, (a, b) ∈ spacingScanFrom t s1 l → a = s1 ∧ b ∈ l
  | [], h => by cases h
  | s2 :: rest, h => by
    rw [spacingScanFrom] at h
    split at h
    · cases h
    · rw [List.mem_cons] at h
      rcases h with h | h
      · cases h
        exact ⟨rfl, List.mem_cons_self ..⟩
      · rcases spacingScanFrom_sub h with ⟨ha, hb⟩
        exact ⟨ha, List.mem_cons_of_mem _ hb⟩

theorem spacingScan_sub {t : Nat} {a b : Shift} :
    ∀ {l : List Shift}, (a, b) ∈ spacingScan t l → a ∈ l ∧ b ∈ l
  | [], h => by cases h
  | s1 :: rest, h => by
    rw [spacingScan, List.mem_append] at h
    rcases h with h | h
    · rcases spacingScanFrom_sub h with ⟨rfl, hb⟩
      exact ⟨List.mem_cons_self .., List.mem_cons_of_mem _ hb⟩
    · rcases spacingScan_sub h with ⟨ha, hb⟩
      exact ⟨List.mem_cons_of_mem _ ha, List.mem_cons_of_mem _ hb⟩

theorem mem_sortByDay {l : List Shift} {s : Shift} : s ∈ sortByDay l ↔ s ∈ l :=
  (List.perm_insertionSort byDay l).mem_iff

theorem spacingPair_sub {inp : Inp} {p : Shift × Shift}
    (h : p ∈ bad_spacing_pairs inp) :
    p.1 ∈ empty_shifts inp ∧ p.2 ∈ empty_shifts inp := by
  unfold bad_spacing_pairs at h
  obtain ⟨a, b⟩ := p
  rcases spacingScan_sub h with ⟨ha, hb⟩
  exact ⟨mem_sortByDay.mp ha, mem_sortByDay.mp hb⟩

theorem weekend_sub {inp : Inp} {s : Shift}
    (h : s ∈ empty_weekend_shifts inp) : s ∈ empty_shifts inp := by
  unfold empty_weekend_shifts at h
  rcases List.mem_map.mp h with ⟨r, hr, rfl⟩
  rcases List.mem_filter.mp hr with ⟨_, hcond⟩
  rw [Bool.and_eq_true, decide_eq_true_eq] at hcond
  exact hcond.1

end ComponentLemmas

section Congruence

/-- The constraint set only reads the variable table at
(listed worker, empty shift) coordinates, so two tables agreeing there
satisfy the same constraints. -/
theorem core_congr {inp : Inp} {v v' : String → Shift → Bool}
    {y z : String → Shift × Shift → Bool}
    (hvv : ∀ w ∈ workers inp, ∀ s ∈ empty_shifts inp, v w s = v' w s)
    (h : constraintsCore inp v y z) : constraintsCore inp v' y z := by
  obtain ⟨c1, c2, c3, c4, c5, c6, c7, c8, c9, c10, c11, c12⟩ := h
  refine ⟨?_, ?_, ?_, ?_, ?_, ?_, ?_, c8, ?_, ?_, ?_, ?_⟩
  · intro s hs
    rw [show (workers inp).countP (fun w => v' w s) =
        (workers inp).countP (fun w => v w s) from
      List.countP_congr (fun w hw => by rw [hvv w hw s hs])]
    exact c1 s hs
  · intro w hw
    rw [show (empty_shifts inp).countP (fun s => v' w s) =
        (empty_shifts inp).countP (fun s => v w s) from
      List.countP_congr (fun s hs => by rw [hvv w hw s hs])]
    exact c2 w hw
  · intro p hp w hw
    rw [← hvv w hw p.1 (nightToDay_sub hp).1, ← hvv w hw p.2 (nightToDay_sub hp).2]
    exact c3 p hp w hw
  · intro hflag p hp w hw
    rw [← hvv w hw p.1 (nightNight_sub hp).1, ← hvv w hw p.2 (nightNight_sub hp).2]
    exact c4 hflag p hp w hw
  · intro hflag p hp w hw
    rw [← hvv w hw p.1 (dayDay_sub hp).1, ← hvv w hw p.2 (dayDay_sub hp).2]
    exact c5 hflag p hp w hw
  · intro p hp w hw
    rw [← hvv w hw p.1 (sameDayPair_sub hp).1, ← hvv w hw p.2 (sameDayPair_sub hp).2]
    exact c6 p hp w hw
  · intro p hp w hw
    rw [← hvv w hw p.1 (twentyFourPair_sub hp).1, ← hvv w hw p.2 (twentyFourPair_sub hp).2]
    exact c7 p hp w hw
  · intro w hw
    rw [show (empty_weekend_shifts inp).countP (fun s => v' w s) =
        (empty_weekend_shifts inp).countP (fun s => v w s) from
      List.countP_congr (fun s hs => by rw [hvv w hw s (weekend_sub hs)])]
    exact c9 w hw
  · intro p hp w hw
    rw [← hvv w hw p.1 (spacingPair_sub hp).1, ← hvv w hw p.2 (spacingPair_sub hp).2]
    exact c10 p hp w hw
  · intro w hw f hf hfe
    rw [← hvv w hw f hfe]
    exact c11 w hw f hf hfe
  · intro w hw p hp e he hb
    rw [← hvv w hw e he]
    exact c12 w hw p hp e he hb

end Congruence

section ExtractionLemmas

theorem extract_some {inp : Inp} {sol : Sol} {s : Shift} {w : String}
    (h : extractWorker inp sol s = some w) :
    w ∈ workers inp ∧ assignVal inp sol.x w s = true := by
  have hmem : w ∈ (workers inp).filter (fun w => assignVal inp sol.x w s) :=
    List.mem_of_mem_getLast? h
  rcases List.mem_filter.mp hmem with ⟨hw, hv⟩
  exact ⟨hw, hv⟩

theorem getLast?_of_mem_of_len_le_one {α : Type} {l : List α} {w : α}
    (hlen : l.length ≤ 1) (hw : w ∈ l) : l.getLast? = some w := by
  match l, hlen with
  | [], _ => cases hw
  | [a], _ =>
    rcases List.mem_singleton.mp hw with rfl
    rfl

/-- Under constraint 1, the worker extracted for an empty shift is `w`
exactly when `w`'s table entry is 1. -/
theorem extract_eq_some_iff {inp : Inp} {sol : Sol} {s : Shift} {w : String}
    (hc1 : constraint1 inp (assignVal inp sol.x)) (hs : s ∈ empty_shifts inp)
    (hw : w ∈ workers inp) :
    extractWorker inp sol s = some w ↔ assignVal inp sol.x w s = true := by
  constructor
  · intro h
    exact (extract_some h).2
  · intro h
    have hmem : w ∈ (workers inp).filter (fun w => assignVal inp sol.x w s) :=
      List.mem_filter.mpr ⟨hw, h⟩
    have hlen : ((workers inp).filter (fun w => assignVal inp sol.x w s)).length ≤ 1 := by
      rw [← List.countP_eq_length_filter]
      exact hc1 s hs
    exact getLast?_of_mem_of_len_le_one hlen hmem

theorem mem_final_of_empty {inp : Inp} {sol : Sol} {s : Shift}
    (hs : s ∈ empty_shifts inp) :
    (s, extractWorker inp sol s) ∈ finalAssignments inp sol := by
  unfold empty_shifts at hs
  rcases List.mem_map.mp hs with ⟨r, hr, rfl⟩
  rcases List.mem_filter.mp hr with ⟨hrmem, hnone⟩
  rw [beq_iff_eq] at hnone
  unfold finalAssignments initAssignments
  rw [List.mem_map]
  refine ⟨(r.name, r.assigned_worker), List.mem_map.mpr ⟨r, hrmem, rfl⟩, ?_⟩
  simp [hnone]

theorem final_empty_eq {inp : Inp}
    (hU : (inp.shifts_list.map (fun r => r.name)).Nodup) {sol : Sol}
    {s : Shift} {ow : Option String}
    (hs : s ∈ empty_shifts inp) (h : (s, ow) ∈ finalAssignments inp sol) :
    ow = extractWorker inp sol s := by
  unfold empty_shifts at hs
  rcases List.mem_map.mp hs with ⟨re, hre, hname⟩
  rcases List.mem_filter.mp hre with ⟨hremem, hrenone⟩
  rw [beq_iff_eq] at hrenone
  unfold finalAssignments initAssignments at h
  rw [List.map_map, List.mem_map] at h
  rcases h with ⟨r, hrmem, heq⟩
  by_cases hass : r.assigned_worker = none
  · simp only [Function.comp, hass, if_pos rfl] at heq
    cases heq
    rfl
  · simp only [Function.comp, if_neg hass] at heq
    cases heq
    have : re = r := List.inj_on_of_nodup_map hU hremem hrmem hname
    rw [← this, hrenone] at hass
    exact absurd rfl hass

theorem init_empty_eq {inp : Inp}
    (hU : (inp.shifts_list.map (fun r => r.name)).Nodup)
    {s : Shift} {ow : Option String}
    (hs : s ∈ empty_shifts inp) (h : (s, ow) ∈ initAssignments inp) :
    ow = none := by
  unfold empty_shifts at hs
  rcases List.mem_map.mp hs with ⟨re, hre, hname⟩
  rcases List.mem_filter.mp hre with ⟨hremem, hrenone⟩
  rw [beq_iff_eq] at hrenone
  unfold initAssignments at h
  rw [List.mem_map] at h
  rcases h with ⟨r, hrmem, heq⟩
  cases heq
  have : re = r := List.inj_on_of_nodup_map hU hremem hrmem hname
  rw [← this, hrenone]

end ExtractionLemmas

section SpacingLemmas

/-- On a day-sorted tail, the early `break` of the inner spacing loop
drops exactly the pairs the gap test would reject: once one gap reaches
the threshold, every later gap does too. -/
theorem spacingScanFrom_eq_filter (t : Nat) (a : Shift) :
    ∀ {l : List Shift}, List.Sorted byDay l →
      spacingScanFrom t a l =
        (l.map (fun b => (a, b))).filter (fun p => decide (p.2.day - p.1.day < t))
  | [], _ => rfl
  | b :: rest, hs => by
    have hrest : List.Sorted byDay rest := (List.pairwise_cons.mp hs).2
    have hb : ∀ c ∈ rest, byDay b c := (List.pairwise_cons.mp hs).1
    rw [spacingScanFrom, List.map_cons, List.filter_cons]
    split
    · rename_i hge
      have hpred : (decide (b.day - a.day < t)) = false := by
        simp only [decide_eq_false_iff_not, not_lt]
        exact hge
      rw [hpred]
      rw [if_neg (by simp)]
      symm
      rw [List.filter_eq_nil_iff]
      intro p hp
      rcases List.mem_map.mp hp with ⟨c, hc, rfl⟩
      simp only [decide_eq_true_eq, not_lt]
      calc t ≤ b.day - a.day := hge
        _ ≤ c.day - a.day := Nat.sub_le_sub_right (hb c hc) a.day
    · rename_i hlt
      have hpred : (decide (b.day - a.day < t)) = true := by
        simp only [decide_eq_true_eq]
        omega
      rw [hpred]
      rw [if_pos (by simp)]
      rw [spacingScanFrom_eq_filter t a hrest]

/-- The optimized spacing scan over a day-sorted list equals the naive
all-pairs scan with the same gap test. -/
theorem spacingScan_eq_filter (t : Nat) :
    ∀ {l : List Shift}, List.Sorted byDay l →
      spacingScan t l = (allPairs l).filter (fun p => decide (p.2.day - p.1.day < t))
  | [], _ => rfl
  | a :: rest, hs => by
    have hrest : List.Sorted byDay rest := (List.pairwise_cons.mp hs).2
    rw [spacingScan, allPairs, List.filter_append,
      spacingScanFrom_eq_filter t a hrest, spacingScan_eq_filter t hrest]

theorem sorted_sortByDay (l : List Shift) : List.Sorted byDay (sortByDay l) :=
  List.sorted_insertionSort byDay l

end SpacingLemmas

section CountLemmas

/-- Each consecutive pair counted as a 24-hour shift (same day, same
unit) has day gap 0, so it is also counted as a spacing violation
whenever the threshold is at least 1. -/
theorem count24Adj_le_countCloseAdj (t : Nat) (ht : 1 ≤ t) :
    ∀ l : List Shift, count24Adj l ≤ countCloseAdj t l
  | [] => Nat.le_refl 0
  | [_] => Nat.le_refl 0
  | a :: b :: rest => by
    rw [count24Adj, countCloseAdj]
    refine Nat.add_le_add ?_ (count24Adj_le_countCloseAdj t ht (b :: rest))
    split
    · rename_i h24
      rw [if_pos (by omega)]
    · exact Nat.zero_le _

/-- Sorting a two-element list puts the earlier day first. -/
theorem sortByDay_pair (a b : Shift) :
    sortByDay [a, b] = if a.day ≤ b.day then [a, b] else [b, a] := by
  unfold sortByDay
  simp only [List.insertionSort, List.orderedInsert]
  split
  · rename_i h
    rw [if_pos (show a.day ≤ b.day from h)]
  · rename_i h
    rw [if_neg (show ¬ a.day ≤ b.day from h)]

/-- For a worker holding at most two shifts, the consecutive-pair count
of STEP 16 coincides with the count over all unordered pairs. -/
theorem countCloseAdj_eq_allPairs_of_len_le_two (t : Nat) :
    ∀ {l : List Shift}, l.length ≤ 2 →
      countCloseAdj t (sortByDay l) =
        (allPairs l).countP (fun p => decide (Nat.dist p.1.day p.2.day < t)) := by
  intro l hl
  match l, hl with
  | [], _ => rfl
  | [a], _ => rfl
  | [a, b], _ =>
    rw [sortByDay_pair]
    have hd : Nat.dist a.day b.day = if a.day ≤ b.day then b.day - a.day else a.day - b.day := by
      unfold Nat.dist
      split <;> omega
    split
    · rename_i hle
      show (if b.day - a.day < t then 1 else 0) + 0 = _
      simp only [allPairs, List.map, List.countP, List.countP.go, hd, if_pos hle]
      split <;> rename_i h <;> simp [h]
    · rename_i hgt
      show (if a.day - b.day < t then 1 else 0) + 0 = _
      simp only [allPairs, List.map, List.countP, List.countP.go, hd, if_neg hgt]
      split <;> rename_i h <;> simp [h]

end CountLemmas

section BranchLemmas

/-- A result whose status is a solved status came from the extraction
branch of STEP 14: its assignments are the extracted final mapping. -/
theorem solved_branch {inp : Inp} {st : String} {sol : Sol}
    (hsolved : (solve_rota inp st sol).status = "Optimal" ∨
      (solve_rota inp st sol).status = "Not Solved") :
    (solve_rota inp st sol).assignments = finalAssignments inp sol ∧
    (solve_rota inp st sol).bad_spacing_count =
      bad_spacing_count (finalAssignments inp sol) inp.settings.spacing_days_threshold := by
  by_cases h0 : empty_shifts inp = [] ∨ workers inp = []
  · exfalso
    unfold solve_rota at hsolved
    rw [if_pos h0] at hsolved
    rcases hsolved with h | h <;> simp at h
  by_cases hInf : st = "Infeasible"
  · exfalso
    unfold solve_rota at hsolved
    rw [if_neg h0, if_pos hInf] at hsolved
    rcases hsolved with h | h <;> simp at h
  by_cases hOk : st = "Optimal" ∨ st = "Not Solved"
  · unfold solve_rota
    rw [if_neg h0, if_neg hInf, if_pos hOk]
    exact ⟨rfl, rfl⟩
  · exfalso
    unfold solve_rota at hsolved
    rw [if_neg h0, if_neg hInf, if_neg hOk] at hsolved
    exact hOk hsolved

/-- Any non-extraction branch of `solve_rota` returns the STEP 2
assignments dict unchanged. -/
theorem result_assignments_cases (inp : Inp) (st : String) (sol : Sol) :
    (solve_rota inp st sol).assignments = initAssignments inp ∨
    (solve_rota inp st sol).assignments = finalAssignments inp sol := by
  unfold solve_rota
  split
  · exact Or.inl rfl
  split
  · exact Or.inl rfl
  split
  · exact Or.inr rfl
  · exact Or.inl rfl

end BranchLemmas

section ClaimC3

/-- C3 counterexample: with two empty shifts on day 1 and the default
threshold 5, the optimized scan emits the same-day pair, while the set
the claim describes (pairs on *different* days) is empty — so the scan
does not compute the claimed set. -/
theorem C3_counterexample :
    bad_spacing_pairs c3Inp =
      [(⟨SType.Day, 1, "A"⟩, ⟨SType.Night, 1, "A"⟩)] ∧
    claimSpacingPairs c3Inp = [] := by decide

/-- C3 (amended): the early-break scan over the day-sorted empty shifts
equals the naive all-pairs scan with the same strict gap test — including
pairs of shifts on the same day (gap 0). -/
theorem C3_scan_eq_naive (inp : Inp) :
    bad_spacing_pairs inp = naiveSpacingPairs inp := by
  unfold bad_spacing_pairs naiveSpacingPairs
  exact spacingScan_eq_filter _ (sorted_sortByDay _)

end ClaimC3

section ClaimC4

/-- C4 counterexample: a settings record every one of whose entries
(including all keys `create_rota` actually sends) is 42 is still
submitted with time limit 6000 — the limit is not taken from the Settings
record. -/
theorem C4_counterexample :
    submittedTimeLimit (createRotaSettingsKeys.map (fun k => (k, (42 : Int)))) = 6000 ∧
    (createRotaSettingsKeys.map (fun k => (k, (42 : Int)))).all
      (fun p => decide (p.2 = 42)) = true ∧
    ¬ (6000 : Int) = 42 := by decide

/-- C4 (amended): the model is always submitted with the hard-coded
wall-clock limit `timeLimit_setting = 6000` seconds, whatever settings
record the caller passes. -/
theorem C4_time_limit_constant (s : List (String × Int)) :
    submittedTimeLimit s = timeLimit_setting ∧ timeLimit_setting = 6000 :=
  ⟨rfl, rfl⟩

end ClaimC4

section ClaimC5

/-- C5: with no empty shift or no worker, `solve_rota` short-circuits at
STEP 8: it returns the input mapping unchanged, all-zero summary counts
and the status `Nothing to assign`; the result does not depend on the
solver boundary (status or variable values) because no model is built and
the solver is never invoked. -/
theorem C5_nothing_to_assign (inp : Inp) (st : String) (sol : Sol)
    (h : empty_shifts inp = [] ∨ workers inp = []) :
    solve_rota inp st sol =
      ⟨initAssignments inp, 0, 0, 0, "Nothing to assign"⟩ ∧
    ∀ (st2 : String) (sol2 : Sol), solve_rota inp st sol = solve_rota inp st2 sol2 := by
  constructor
  · unfold solve_rota
    rw [if_pos h]
  · intro st2 sol2
    unfold solve_rota
    rw [if_pos h, if_pos h]

/-- C5 witness: scenario C — one shift, zero workers. -/
theorem C5_witness :
    (empty_shifts c5Inp = [] ∨ workers c5Inp = []) ∧
    solve_rota c5Inp "Optimal" trivSol =
      ⟨initAssignments c5Inp, 0, 0, 0, "Nothing to assign"⟩ :=
  ⟨by decide, (C5_nothing_to_assign c5Inp "Optimal" trivSol (by decide)).1⟩

end ClaimC5

section ClaimC7

/-- C7: when the solver reports `Infeasible` (and the run was not
short-circuited at STEP 8), the engine returns status `Infeasible` with
zero summary counts and the input mapping unchanged; and scenario B — a
worker with minimum 5 when only 3 empty shifts exist — admits no variable
valuation satisfying the model's constraints (worker-range constraint 2
cannot be met), so the solver must report exactly this status. -/
theorem C7_infeasible (inp : Inp) (sol : Sol)
    (hne : ¬(empty_shifts inp = [] ∨ workers inp = [])) :
    solve_rota inp "Infeasible" sol =
      ⟨initAssignments inp, 0, 0, 0, "Infeasible"⟩ ∧
    ∀ sol2 : Sol, ¬ Satisfies c7Inp sol2 := by
  constructor
  · unfold solve_rota
    rw [if_neg hne, if_pos rfl]
  · intro sol2 hsat
    unfold Satisfies constraintsCore at hsat
    obtain ⟨-, hc2, -⟩ := hsat
    unfold constraint2 at hc2
    have hb := (hc2 "Bob" (by decide)).2
    have hlen : (empty_shifts c7Inp).countP
        (fun s => assignVal c7Inp sol2.x "Bob" s) ≤ (empty_shifts c7Inp).length :=
      List.countP_le_length _
    have h3 : (empty_shifts c7Inp).length = 3 := by decide
    have h5 : (shiftRange c7Inp "Bob").1 = 5 := by decide
    rw [h5] at hb
    omega

/-- C7 witness: the Infeasible branch at a concrete non-degenerate
input. -/
theorem C7_witness :
    solve_rota c7Inp "Infeasible" trivSol =
      ⟨initAssignments c7Inp, 0, 0, 0, "Infeasible"⟩ :=
  (C7_infeasible c7Inp trivSol (by decide)).1

end ClaimC7

section ClaimC10

/-- C10: whenever the spacing threshold is at least 1, every consecutive
same-day same-unit pair counted by `twenty_four_count` has day gap 0 and
is therefore also counted by `bad_spacing_count`, so in every returned
summary `twenty_four_count ≤ bad_spacing_count`. -/
theorem C10_twenty_four_le_spacing (inp : Inp) (st : String) (sol : Sol)
    (ht : 1 ≤ inp.settings.spacing_days_threshold) :
    (solve_rota inp st sol).twenty_four_count ≤
      (solve_rota inp st sol).bad_spacing_count := by
  unfold solve_rota
  split
  · exact Nat.le_refl 0
  split
  · exact Nat.le_refl 0
  split
  · show twenty_four_count _ ≤ bad_spacing_count _ _
    unfold twenty_four_count bad_spacing_count
    exact List.sum_le_sum (fun w _ => count24Adj_le_countCloseAdj _ ht _)
  · exact Nat.le_refl 0

/-- C10 witness: a worker holding a 24-hour pair, threshold 5. -/
theorem C10_witness :
    1 ≤ c10Inp.settings.spacing_days_threshold ∧
    (solve_rota c10Inp "Optimal" trivSol).twenty_four_count ≤
      (solve_rota c10Inp "Optimal" trivSol).bad_spacing_count :=
  ⟨by decide, C10_twenty_four_le_spacing c10Inp "Optimal" trivSol (by decide)⟩

end ClaimC10

section ClaimC1

/-- C1: in any result with a solved status (`Optimal` or `Not Solved`),
whose variable values satisfy the assembled model (the external-solver
guarantee for solved statuses), no single worker holds both members of a
conflicting pair of empty shifts: Night day d with Day day d+1 (any
units, unconditionally), Night/Night on consecutive days when
`enforce_no_adj_nights` is set, Day/Day on consecutive days when
`enforce_no_adj_days` is set, and any two same-day shifts that are not a
same-unit Day+Night pair (unconditionally).  Shift names are assumed
unique in the snapshot (data-model invariant). -/
theorem C1_no_conflicting_pair (inp : Inp) (st : String) (sol : Sol)
    (w : String) (s1 s2 : Shift)
    (hU : (inp.shifts_list.map (fun r => r.name)).Nodup)
    (hsat : Satisfies inp sol)
    (hsolved : (solve_rota inp st sol).status = "Optimal" ∨
      (solve_rota inp st sol).status = "Not Solved")
    (h1 : s1 ∈ empty_shifts inp) (h2 : s2 ∈ empty_shifts inp)
    (hc : conflictPair inp.settings s1 s2) :
    ¬((s1, some w) ∈ (solve_rota inp st sol).assignments ∧
      (s2, some w) ∈ (solve_rota inp st sol).assignments) := by
  rintro ⟨hm1, hm2⟩
  rw [(solved_branch hsolved).1] at hm1 hm2
  have he1 : extractWorker inp sol s1 = some w := (final_empty_eq hU h1 hm1).symm
  have he2 : extractWorker inp sol s2 = some w := (final_empty_eq hU h2 hm2).symm
  have hw : w ∈ workers inp := (extract_some he1).1
  have hv1 : assignVal inp sol.x w s1 = true := (extract_some he1).2
  have hv2 : assignVal inp sol.x w s2 = true := (extract_some he2).2
  unfold Satisfies constraintsCore at hsat
  obtain ⟨-, -, hc3, hc4, hc5, hc6, -⟩ := hsat
  unfold conflictPair at hc
  rcases hc with ⟨ht1, ht2, hd⟩ | ⟨ht2, ht1, hd⟩ | ⟨hflag, ht1, ht2, hd | hd⟩ |
    ⟨hflag, ht1, ht2, hd | hd⟩ | ⟨hd, hne, hallow⟩
  · exact hc3 (s1, s2) (nightToDay_intro h1 h2 ht1 ht2 hd) w hw ⟨hv1, hv2⟩
  · exact hc3 (s2, s1) (nightToDay_intro h2 h1 ht2 ht1 hd) w hw ⟨hv2, hv1⟩
  · exact hc4 hflag (s1, s2) (nightNight_intro h1 h2 ht1 ht2 hd) w hw ⟨hv1, hv2⟩
  · exact hc4 hflag (s2, s1) (nightNight_intro h2 h1 ht2 ht1 hd) w hw ⟨hv2, hv1⟩
  · exact hc5 hflag (s1, s2) (dayDay_intro h1 h2 ht1 ht2 hd) w hw ⟨hv1, hv2⟩
  · exact hc5 hflag (s2, s1) (dayDay_intro h2 h1 ht2 ht1 hd) w hw ⟨hv2, hv1⟩
  · have h24 : is24Pair s1 s2 = false := by
      unfold is24Pair
      simp only [Bool.and_eq_false_iff, decide_eq_false_iff_not]
      by_cases hu : s1.unit = s2.unit
      · exact Or.inr (fun hne2 => hallow ⟨hu, hne2⟩)
      · exact Or.inl hu
    rcases sameDay_intro h1 h2 hne hd h24 with hpair | hpair
    · exact hc6 (s1, s2) hpair w hw ⟨hv1, hv2⟩
    · exact hc6 (s2, s1) hpair w hw ⟨hv2, hv1⟩

/-- C1 witness: a Night day 2 / Day day 3 conflict at a concrete input
with the all-zero (constraint-satisfying) valuation. -/
theorem C1_witness :
    ¬((⟨SType.Night, 2, "A"⟩, some "Walt") ∈
        (solve_rota c1Inp "Optimal" trivSol).assignments ∧
      (⟨SType.Day, 3, "A"⟩, some "Walt") ∈
        (solve_rota c1Inp "Optimal" trivSol).assignments) :=
  C1_no_conflicting_pair c1Inp "Optimal" trivSol "Walt"
    ⟨SType.Night, 2, "A"⟩ ⟨SType.Day, 3, "A"⟩
    (by decide) (by decide) (by decide) (by decide) (by decide) (by decide)

end ClaimC1

section ClaimC6

/-- C6: for a worker with `max_24hr = 0` holding a pre-assigned shift on
day d in unit u, constraint 12's 24hr block forces the table entry of
every empty shift on the same day and unit of complementary type to zero,
so the shift is never assigned to that worker in any returned result
(solved or not).  Shift names are assumed unique in the snapshot. -/
theorem C6_max24_zero_blocks (inp : Inp) (sol : Sol) (w : String) (p e : Shift)
    (hU : (inp.shifts_list.map (fun r => r.name)).Nodup)
    (hsat : Satisfies inp sol)
    (hw : w ∈ workers inp)
    (hp : p ∈ pre_assigned inp w)
    (he : e ∈ empty_shifts inp)
    (h24 : max_24hr_of inp w = 0)
    (hday : e.day = p.day) (hunit : e.unit = p.unit) (htype : e.stype ≠ p.stype) :
    assignVal inp sol.x w e = false ∧
    ∀ st : String, ¬ (e, some w) ∈ (solve_rota inp st sol).assignments := by
  have hblock : assignVal inp sol.x w e = false := by
    unfold Satisfies constraintsCore at hsat
    obtain ⟨-, -, -, -, -, -, -, -, -, -, -, hc12⟩ := hsat
    exact hc12 w hw p hp e he
      (Or.inr (Or.inr (Or.inr (Or.inr ⟨h24, hday, hunit, htype⟩))))
  refine ⟨hblock, ?_⟩
  intro st hmem
  rcases result_assignments_cases inp st sol with hres | hres
  · rw [hres] at hmem
    exact absurd (init_empty_eq hU he hmem) (by simp)
  · rw [hres] at hmem
    have hex : extractWorker inp sol e = some w := (final_empty_eq hU he hmem).symm
    rw [(extract_some hex).2] at hblock
    cases hblock

/-- C6 witness: scenario D — "Dana" with `max_24hr = 0` and a
pre-assigned Day 5 "A" shift never receives the empty Night 5 "A"
shift. -/
theorem C6_witness :
    assignVal c6Inp trivSol.x "Dana" ⟨SType.Night, 5, "A"⟩ = false ∧
    ∀ st : String,
      ¬ (⟨SType.Night, 5, "A"⟩, some "Dana") ∈
        (solve_rota c6Inp st trivSol).assignments :=
  C6_max24_zero_blocks c6Inp trivSol "Dana" ⟨SType.Day, 5, "A"⟩
    ⟨SType.Night, 5, "A"⟩ (by decide) (by decide) (by decide) (by decide)
    (by decide) (by decide) (by decide) (by decide) (by decide)

end ClaimC6

section ClaimC8

/-- C8 counterexample: "Alice" has `shifts_to_fill = [0, 0]` but already
holds one pre-assigned shift.  The all-zero valuation satisfies every
constraint (constraint 2 only counts *empty* shifts), the run completes
with status `Optimal`, yet Alice holds 1 shift in the final mapping —
outside her [0, 0] range.  So the claim fails for the final mapping. -/
theorem C8_counterexample :
    Satisfies c8Inp trivSol ∧
    (solve_rota c8Inp "Optimal" trivSol).status = "Optimal" ∧
    shiftRange c8Inp "Alice" = (0, 0) ∧
    (solve_rota c8Inp "Optimal" trivSol).assignments.countP
      (fun pr => pr.2 == some "Alice") = 1 := by decide

/-- C8 (amended): in any feasible run, every listed worker's count of
*solver-assigned* (previously empty) shifts lies within that worker's
inclusive [min, max] range; pre-assigned shifts are outside constraint
2's scope and can push the final-mapping count past max. -/
theorem C8_solver_count_in_range (inp : Inp) (sol : Sol) (w : String)
    (hsat : Satisfies inp sol) (hw : w ∈ workers inp) :
    (shiftRange inp w).1 ≤
      (empty_shifts inp).countP (fun s => extractWorker inp sol s == some w) ∧
    (empty_shifts inp).countP (fun s => extractWorker inp sol s == some w) ≤
      (shiftRange inp w).2 := by
  have hcore := hsat
  unfold Satisfies constraintsCore at hcore
  obtain ⟨hc1, hc2, -⟩ := hcore
  have hcount : (empty_shifts inp).countP (fun s => extractWorker inp sol s == some w) =
      (empty_shifts inp).countP (fun s => assignVal inp sol.x w s) := by
    refine List.countP_congr (fun s hs => ?_)
    rw [beq_iff_eq]
    exact extract_eq_some_iff hc1 hs hw
  rw [hcount]
  exact ⟨(hc2 w hw).2, (hc2 w hw).1⟩

/-- C8 witness: "Wren" with range [1, 1] receives exactly the one empty
shift. -/
theorem C8_witness :
    (shiftRange c8wInp "Wren").1 ≤
      (empty_shifts c8wInp).countP
        (fun s => extractWorker c8wInp c8wSol s == some "Wren") ∧
    (empty_shifts c8wInp).countP
        (fun s => extractWorker c8wInp c8wSol s == some "Wren") ≤
      (shiftRange c8wInp "Wren").2 :=
  C8_solver_count_in_range c8wInp c8wSol "Wren" (by decide) (by decide)

end ClaimC8

section ClaimC2

/-- C2 counterexample: "Carl" holds shifts on days 1, 3 and 5 (all three
pairwise gaps 2, 2 and 4 are below the threshold 5), the run completes
with status `Optimal`, but the returned `bad_spacing_count` is 2, not the
3 unordered close pairs the claim describes: STEP 16 only tests
*consecutive* pairs of the day-sorted list. -/
theorem C2_counterexample :
    Satisfies c2Inp trivSol ∧
    (solve_rota c2Inp "Optimal" trivSol).status = "Optimal" ∧
    (solve_rota c2Inp "Optimal" trivSol).bad_spacing_count = 2 ∧
    claimSpacingViolationCount
      (solve_rota c2Inp "Optimal" trivSol).assignments
      c2Inp.settings.spacing_days_threshold = 3 := by decide

/-- C2 (amended): `bad_spacing_count` counts, per worker, the
*consecutive* pairs of the day-sorted shift list (pre-assigned and
solver-assigned alike) with gap strictly below the threshold; this
coincides with the claimed all-unordered-pairs count whenever every
worker holds at most two shifts.  In particular (scenario E) a worker
holding exactly two shifts 3 days apart under threshold 5 yields count
exactly 1, and assigning both shifts to that worker satisfies every hard
constraint (the spacing rule is only a soft penalty). -/
theorem C2_spacing_count :
    (∀ (asg : List (Shift × Option String)) (t : Nat),
      (∀ w ∈ assignedWorkers asg, (shiftsOfWorker asg w).length ≤ 2) →
      bad_spacing_count asg t = claimSpacingViolationCount asg t) ∧
    (Satisfies c2eInp c2eSol ∧
     (solve_rota c2eInp "Optimal" c2eSol).bad_spacing_count = 1 ∧
     (solve_rota c2eInp "Optimal" c2eSol).assignments =
       [(⟨SType.Day, 1, "A"⟩, some "Eve"), (⟨SType.Day, 4, "A"⟩, some "Eve")]) := by
  constructor
  · intro asg t hle
    unfold bad_spacing_count claimSpacingViolationCount
    rw [List.map_congr_left
      (fun w hw => countCloseAdj_eq_allPairs_of_len_le_two t (hle w hw))]
  · exact ⟨by decide, by decide, by decide⟩

/-- C2 witness: the consecutive-pair count equals the all-pairs count for
a worker holding two shifts 3 days apart. -/
theorem C2_witness :
    bad_spacing_count c2wAsg 5 = claimSpacingViolationCount c2wAsg 5 :=
  C2_spacing_count.1 c2wAsg 5 (by decide)

end ClaimC2

section ClaimC9

theorem mem_worker_cannot_iff {inp : Inp} {w : String} {s : Shift}
    (hu : s.unit ∈ inp.units_list) :
    s ∈ worker_cannot inp w ↔ (s.stype, s.day) ∈ cannotTokens inp w := by
  unfold worker_cannot cannotTokens
  cases hfind : findWorker inp w with
  | none => simp
  | some r =>
    simp only [hfind, Option.map_some', Option.getD_some]
    rw [List.mem_flatMap]
    constructor
    · rintro ⟨u, hu', hmem⟩
      rcases List.mem_map.mp hmem with ⟨tok, htok, heq⟩
      rw [← heq]
      exact htok
    · intro htok
      exact ⟨s.unit, hu, List.mem_map.mpr ⟨(s.stype, s.day), htok, rfl⟩⟩

/-- C9: (1) for every (worker, empty-shift) combination whose unit is one
of the snapshot's units, STEP 10 creates a decision variable iff the
shift's type+day token is not among the worker's `cannot_work` tokens —
pruned combinations get the constant zero; (2) the pruning has no effect
on the assignments returned: every valuation of the unpruned model
(constraint 11 doing the zeroing) satisfies the pruned model and extracts
the same mapping on the empty shifts, and conversely every valuation of
the pruned model yields, through the zero-masked table, a valuation of
the unpruned model with the same extraction everywhere. -/
theorem C9_pruning (inp : Inp) :
    (∀ (w : String) (s : Shift), s.unit ∈ inp.units_list →
      (variableCreated inp w s ↔ ¬ (s.stype, s.day) ∈ cannotTokens inp w)) ∧
    (∀ sol : Sol, SatisfiesUnpruned inp sol →
      Satisfies inp sol ∧
      ∀ s ∈ empty_shifts inp,
        extractWorkerUnpruned inp sol s = extractWorker inp sol s) ∧
    (∀ sol : Sol, Satisfies inp sol →
      SatisfiesUnpruned inp ⟨assignVal inp sol.x, sol.y, sol.z⟩ ∧
      ∀ s : Shift,
        extractWorkerUnpruned inp ⟨assignVal inp sol.x, sol.y, sol.z⟩ s =
          extractWorker inp sol s) := by
  refine ⟨?_, ?_, ?_⟩
  · intro w s hu
    unfold variableCreated
    exact not_congr (mem_worker_cannot_iff hu)
  · intro sol hsat
    have hc11 : constraint11 inp sol.x := by
      unfold SatisfiesUnpruned constraintsCore at hsat
      exact hsat.2.2.2.2.2.2.2.2.2.2.1
    have hvv : ∀ w ∈ workers inp, ∀ s ∈ empty_shifts inp,
        sol.x w s = assignVal inp sol.x w s := by
      intro w hw s hs
      unfold assignVal
      split
      · rename_i hmem
        exact hc11 w hw s hmem hs
      · rfl
    constructor
    · exact core_congr hvv hsat
    · intro s hs
      unfold extractWorkerUnpruned extractWorker
      rw [List.filter_congr (fun w hw => hvv w hw s hs)]
  · intro sol hsat
    exact ⟨hsat, fun s => rfl⟩

/-- C9 witness: at a concrete input, the forbidden Day 3 combination gets
no variable, the allowed Night 3 one does, and a satisfying unpruned
valuation extracts the same assignment as the pruned model. -/
theorem C9_witness :
    (¬ variableCreated c9Inp "Uma" ⟨SType.Day, 3, "A"⟩) ∧
    variableCreated c9Inp "Uma" ⟨SType.Night, 3, "A"⟩ ∧
    (variableCreated c9Inp "Uma" ⟨SType.Night, 3, "A"⟩ ↔
      ¬ (SType.Night, 3) ∈ cannotTokens c9Inp "Uma") ∧
    extractWorkerUnpruned c9Inp trivSol ⟨SType.Night, 3, "A"⟩ =
      extractWorker c9Inp trivSol ⟨SType.Night, 3, "A"⟩ :=
  ⟨by decide, by decide,
    (C9_pruning c9Inp).1 "Uma" ⟨SType.Night, 3, "A"⟩ (by decide),
    ((C9_pruning c9Inp).2.1 trivSol (by decide)).2 ⟨SType.Night, 3, "A"⟩ (by decide)⟩

end ClaimC9

end RotaApp
